import Mathlib

/-!
Verification development for the quantcrypt composite-KEM core
(`src/kem/xwing.rs`, `src/kem/common/config/ss_len.rs`,
`src/dsa/common/config/sk_len.rs`, `src/errors.rs`).

Byte strings are modelled as `List Nat`. Fallible Rust functions returning
`Result<T, QuantCryptError>` become `Except QuantCryptError T`. The
underlying primitives (ML-KEM manager, the X25519 EC-KEM manager, the
SHAKE-256 KDF, SHA3-256) are external collaborators: their code is not part
of the analysed sources, so they are modelled as an explicit environment
record of abstract functions, with the contracts the specification states
about them expressed as `Prop`-valued assumptions.
-/

/-- Byte strings, as lists of naturals. -/
abbrev Bytes : Type := List Nat

deriving instance DecidableEq for Except

/-- Embedding of `QuantCryptError` from `src/errors.rs`: the full closed
error enumeration, one constructor per Rust variant. -/
inductive QuantCryptError : Type where
  | KeyWrapFailed
  | KeyUnwrapFailed
  | InvalidOid
  | InvalidPublicKey
  | InvalidPrivateKey
  | SerializationFailed
  | SignatureVerificationFailed
  | SignatureFailed
  | InvalidSignature
  | KeyPairGenerationFailed
  | MissingNotAfter
  | MissingSubject
  | MissingPublicKey
  | BadPrivateKey
  | BadPublicKey
  | BadSubject
  | InvalidHkdfLength
  | BadIssuersPublicKey
  | BadSerialNumber
  | BadExtension
  | InvalidNotBefore
  | InvalidNotAfter
  | InvalidCertificate
  | UnsupportedOperation
  | NotImplemented
  | InvalidCiphertext
  | EncapFailed
  | DecapFailed
  | Unknown
deriving DecidableEq, Repr

/-- Embedding of the `KemType` enumeration: the closed set of variants,
exactly the arms of the exhaustive match in
`src/kem/common/config/ss_len.rs`. -/
inductive KemType : Type where
  | P256
  | P384
  | X25519
  | BrainpoolP256r1
  | BrainpoolP384r1
  | X448
  | RsaOAEP2048
  | RsaOAEP3072
  | RsaOAEP4096
  | MlKem512
  | MlKem768
  | MlKem1024
  | MlKem768BrainpoolP256r1
  | MlKem768X25519
  | MlKem1024P384
  | MlKem1024BrainpoolP384r1
  | MlKem1024X448
  | MlKem768Rsa2048
  | MlKem768Rsa3072
  | MlKem768Rsa4096
  | MlKem768P384
  | XWing
deriving DecidableEq, Repr

/-- `SSLen::get_ss_len` for `KemType`
(`src/kem/common/config/ss_len.rs`, lines 19-51). -/
def KemType.get_ss_len : KemType → Nat
  | .P256 => 32
  | .P384 => 48
  | .X25519 => 32
  | .BrainpoolP256r1 => 32
  | .BrainpoolP384r1 => 48
  | .X448 => 56
  | .RsaOAEP2048 => 32
  | .RsaOAEP3072 => 32
  | .RsaOAEP4096 => 32
  | .MlKem512 => 32
  | .MlKem768 => 32
  | .MlKem1024 => 32
  | .MlKem768BrainpoolP256r1 => 32
  | .MlKem768X25519 => 32
  | .MlKem1024P384 => 32
  | .MlKem1024BrainpoolP384r1 => 32
  | .MlKem1024X448 => 32
  | .MlKem768Rsa2048 => 32
  | .MlKem768Rsa3072 => 32
  | .MlKem768Rsa4096 => 32
  | .MlKem768P384 => 32
  | .XWing => 32

/-- Embedding of the `DsaType` enumeration: exactly the arms of the
exhaustive match in `src/dsa/common/config/sk_len.rs`, lines 15-47. -/
inductive DsaType : Type where
  | Rsa2048Pkcs15Sha256
  | Rsa2048PssSha256
  | Rsa3072Pkcs15Sha256
  | Rsa3072PssSha256
  | Rsa4096Pkcs15Sha384
  | Rsa4096PssSha384
  | EcdsaP256SHA256
  | EcdsaBrainpoolP256r1SHA256
  | SlhDsaSha2_128s
  | SlhDsaSha2_128f
  | SlhDsaSha2_192s
  | SlhDsaSha2_192f
  | SlhDsaSha2_256s
  | SlhDsaSha2_256f
  | SlhDsaShake128s
  | SlhDsaShake128f
  | SlhDsaShake192s
  | SlhDsaShake192f
  | SlhDsaShake256s
  | SlhDsaShake256f
  | EcdsaP384SHA384
  | EcdsaBrainpoolP384r1SHA384
  | Ed25519
  | Ed448
deriving DecidableEq, Repr

/-- `SKLen::get_sk_len` for `DsaType`
(`src/dsa/common/config/sk_len.rs`, lines 15-47). -/
def DsaType.get_sk_len : DsaType → Option Nat
  | .Rsa2048Pkcs15Sha256 => none
  | .Rsa2048PssSha256 => none
  | .Rsa3072Pkcs15Sha256 => none
  | .Rsa3072PssSha256 => none
  | .Rsa4096Pkcs15Sha384 => none
  | .Rsa4096PssSha384 => none
  | .EcdsaP256SHA256 => some 32
  | .EcdsaBrainpoolP256r1SHA256 => some 32
  | .SlhDsaSha2_128s => some (32 * 2)
  | .SlhDsaSha2_128f => some (32 * 2)
  | .SlhDsaSha2_192s => some (48 * 2)
  | .SlhDsaSha2_192f => some (48 * 2)
  | .SlhDsaSha2_256s => some (64 * 2)
  | .SlhDsaSha2_256f => some (64 * 2)
  | .SlhDsaShake128s => some (32 * 2)
  | .SlhDsaShake128f => some (32 * 2)
  | .SlhDsaShake192s => some (48 * 2)
  | .SlhDsaShake192f => some (48 * 2)
  | .SlhDsaShake256s => some (64 * 2)
  | .SlhDsaShake256f => some (64 * 2)
  | .EcdsaP384SHA384 => some 48
  | .EcdsaBrainpoolP384r1SHA384 => some 48
  | .Ed25519 => some 32
  | .Ed448 => some 57

/-- Classification of `DsaType` variants that are RSA-based (their Rust
names carry an `Rsa` component): used to state for exactly which variants
the secret-key length is unspecified. -/
def DsaType.containsRsa : DsaType → Bool
  | .Rsa2048Pkcs15Sha256 => true
  | .Rsa2048PssSha256 => true
  | .Rsa3072Pkcs15Sha256 => true
  | .Rsa3072PssSha256 => true
  | .Rsa4096Pkcs15Sha384 => true
  | .Rsa4096PssSha384 => true
  | _ => false

/-- Embedding of the `PrehashDsaType` enumeration: exactly the arms of the
exhaustive match in `src/dsa/common/config/sk_len.rs`, lines 55-92. -/
inductive PrehashDsaType : Type where
  | MlDsa44
  | MlDsa65
  | MlDsa87
  | MlDsa44Rsa2048Pss
  | MlDsa44Rsa2048Pkcs15
  | MlDsa44Ed25519
  | MlDsa44EcdsaP256
  | MlDsa65Rsa3072Pss
  | MlDsa65Rsa3072Pkcs15
  | MlDsa65Rsa4096Pss
  | MlDsa65Rsa4096Pkcs15
  | MlDsa65EcdsaP384
  | MlDsa65EcdsaBrainpoolP256r1
  | MlDsa65Ed25519
  | MlDsa87EcdsaP384
  | MlDsa87EcdsaBrainpoolP384r1
  | MlDsa87Ed448
  | MlDsa44Rsa2048PssSha256
  | MlDsa44Rsa2048Pkcs15Sha256
  | MlDsa44Ed25519Sha512
  | MlDsa44EcdsaP256Sha256
  | MlDsa65Rsa3072PssSha512
  | MlDsa65Rsa3072Pkcs15Sha512
  | MlDsa65Rsa4096PssSha512
  | MlDsa65Rsa4096Pkcs15Sha512
  | MlDsa65EcdsaP384Sha512
  | MlDsa65EcdsaBrainpoolP256r1Sha512
  | MlDsa65Ed25519Sha512
  | MlDsa87EcdsaP384Sha512
  | MlDsa87EcdsaBrainpoolP384r1Sha512
  | MlDsa87Ed448Sha512
deriving DecidableEq, Repr

/-- `SKLen::get_sk_len` for `PrehashDsaType`
(`src/dsa/common/config/sk_len.rs`, lines 55-92). -/
def PrehashDsaType.get_sk_len : PrehashDsaType → Option Nat
  | .MlDsa44 => some 2560
  | .MlDsa65 => some 4032
  | .MlDsa87 => some 4896
  | .MlDsa44Rsa2048Pss => none
  | .MlDsa44Rsa2048Pkcs15 => none
  | .MlDsa44Ed25519 => some (2560 + 32 + 10)
  | .MlDsa44EcdsaP256 => some (2560 + 32 + 10)
  | .MlDsa65Rsa3072Pss => none
  | .MlDsa65Rsa3072Pkcs15 => none
  | .MlDsa65Rsa4096Pss => none
  | .MlDsa65Rsa4096Pkcs15 => none
  | .MlDsa65EcdsaP384 => some (4032 + 48 + 10)
  | .MlDsa65EcdsaBrainpoolP256r1 => some (4032 + 32 + 10)
  | .MlDsa65Ed25519 => some (4032 + 32 + 10)
  | .MlDsa87EcdsaP384 => some (4896 + 48 + 10)
  | .MlDsa87EcdsaBrainpoolP384r1 => some (4896 + 48 + 10)
  | .MlDsa87Ed448 => some (4896 + 57 + 10)
  | .MlDsa44Rsa2048PssSha256 => none
  | .MlDsa44Rsa2048Pkcs15Sha256 => none
  | .MlDsa44Ed25519Sha512 => some (2560 + 32 + 10)
  | .MlDsa44EcdsaP256Sha256 => some (2560 + 32 + 10)
  | .MlDsa65Rsa3072PssSha512 => none
  | .MlDsa65Rsa3072Pkcs15Sha512 => none
  | .MlDsa65Rsa4096PssSha512 => none
  | .MlDsa65Rsa4096Pkcs15Sha512 => none
  | .MlDsa65EcdsaP384Sha512 => some (4032 + 48 + 10)
  | .MlDsa65EcdsaBrainpoolP256r1Sha512 => some (4032 + 32 + 10)
  | .MlDsa65Ed25519Sha512 => some (4032 + 32 + 10)
  | .MlDsa87EcdsaP384Sha512 => some (4896 + 48 + 10)
  | .MlDsa87EcdsaBrainpoolP384r1Sha512 => some (4896 + 48 + 10)
  | .MlDsa87Ed448Sha512 => some (4896 + 57 + 10)

/-- Classification of `PrehashDsaType` variants that contain an RSA
component (their Rust names carry an `Rsa` component). -/
def PrehashDsaType.containsRsa : PrehashDsaType → Bool
  | .MlDsa44Rsa2048Pss => true
  | .MlDsa44Rsa2048Pkcs15 => true
  | .MlDsa65Rsa3072Pss => true
  | .MlDsa65Rsa3072Pkcs15 => true
  | .MlDsa65Rsa4096Pss => true
  | .MlDsa65Rsa4096Pkcs15 => true
  | .MlDsa44Rsa2048PssSha256 => true
  | .MlDsa44Rsa2048Pkcs15Sha256 => true
  | .MlDsa65Rsa3072PssSha512 => true
  | .MlDsa65Rsa3072Pkcs15Sha512 => true
  | .MlDsa65Rsa4096PssSha512 => true
  | .MlDsa65Rsa4096Pkcs15Sha512 => true
  | _ => false

/-- Modelled from the spec: the external collaborators consumed by the
XWing composite layer, whose implementations are outside the analysed
sources (`MlKemManager`, `EcKemManager`, `Sha3Kdf::derive`, SHA3-256,
`openssl_utils::get_pk_from_sk_pkey_based`). Each field is the abstract
function the composite code calls; the contracts §4.2/§4.4/§4.5 of the
spec state about them appear as separate `Prop`-valued records below. -/
structure Env : Type where
  /-- `Sha3Kdf::derive(ikm, &[], len, None)`: SHAKE-256 XOF derivation. -/
  shakeDerive : Bytes → Nat → Except QuantCryptError Bytes
  /-- `MlKemManager::key_gen_deterministic(d, z) -> (pk, sk)`. -/
  mlKeyGenDet : Bytes → Bytes → Except QuantCryptError (Bytes × Bytes)
  /-- `openssl_utils::get_pk_from_sk_pkey_based(sk, Id::X25519)`:
  the X25519 scalar-to-point step. -/
  getPkFromSk : Bytes → Except QuantCryptError Bytes
  /-- `MlKemManager::encap(pk) -> (ss, ct)`. -/
  mlEncap : Bytes → Except QuantCryptError (Bytes × Bytes)
  /-- `MlKemManager::decap(sk, ct) -> ss`. -/
  mlDecap : Bytes → Bytes → Except QuantCryptError Bytes
  /-- `EcKemManager::encap(pk) -> (ss, ct)` for X25519. -/
  ecEncap : Bytes → Except QuantCryptError (Bytes × Bytes)
  /-- `EcKemManager::decap(sk, ct) -> ss` for X25519. -/
  ecDecap : Bytes → Bytes → Except QuantCryptError Bytes
  /-- `sha3::Sha3_256`: total hash function. -/
  sha3_256 : Bytes → Bytes

namespace XWingKemManager

/-- The XWing domain-separation label `\./` ++ `/^\`
(`src/kem/xwing.rs`, lines 54-56), as bytes. -/
def xwing_label : Bytes := [92, 46, 47, 47, 94, 92]

/-- `XWingKemManager::combiner` (`src/kem/xwing.rs`, lines 45-69):
concatenate `ss_m || ss_x || ct_x || pk_x || label` and SHA3-256 hash it.
The Rust function has no failing branch: it always returns `Ok`. -/
def combiner (env : Env) (ss_m ss_x ct_x pk_x : Bytes) :
    Except QuantCryptError Bytes :=
  .ok (env.sha3_256 (ss_m ++ ss_x ++ ct_x ++ pk_x ++ xwing_label))

/-- `XWingKemManager::expand_decapsulation_key` (`src/kem/xwing.rs`,
lines 29-43). `expanded[0..32].try_into()` fails (and in Rust the
slice itself would panic on a shorter buffer) exactly when fewer than the
requested bytes are available; both are modelled as the
`InvalidPrivateKey` branch guarding the 32-byte length. Errors of
`shake.derive` and `ml_kem.key_gen_deterministic` propagate verbatim via
`?`; only the `try_into` and `get_pk_from_sk_pkey_based` failures are
mapped to `InvalidPrivateKey`, as in the source. -/
def expand_decapsulation_key (env : Env) (sk : Bytes) :
    Except QuantCryptError (Bytes × Bytes × Bytes × Bytes) :=
  match env.shakeDerive sk 96 with
  | .error e => .error e
  | .ok expanded =>
    if (expanded.take 32).length = 32 then
      if ((expanded.drop 32).take 32).length = 32 then
        match env.mlKeyGenDet (expanded.take 32) ((expanded.drop 32).take 32) with
        | .error e => .error e
        | .ok (pk_m, sk_m) =>
          match env.getPkFromSk ((expanded.drop 64).take 32) with
          | .error _ => .error QuantCryptError.InvalidPrivateKey
          | .ok pk_x => .ok (sk_m, (expanded.drop 64).take 32, pk_m, pk_x)
      else .error QuantCryptError.InvalidPrivateKey
    else .error QuantCryptError.InvalidPrivateKey

/-- `XWingKemManager::key_gen` (`src/kem/xwing.rs`, lines 93-108). The
system CSPRNG call `openssl::rand::rand_bytes` either fails (modelled as
`none`) or fills the 32-byte buffer from a byte stream. -/
def key_gen (env : Env) (osRand : Option (Nat → Nat)) :
    Except QuantCryptError (Bytes × Bytes) :=
  match osRand with
  | none => .error QuantCryptError.KeyPairGenerationFailed
  | some rng =>
    let sk : Bytes := (List.range 32).map rng
    match expand_decapsulation_key env sk with
    | .error e => .error e
    | .ok (_, _, pk_m, pk_x) => .ok (pk_m ++ pk_x, sk)

/-- `XWingKemManager::key_gen_with_rng` (`src/kem/xwing.rs`, lines
110-128). `rng.fill_bytes` is infallible and overwrites the whole
32-byte buffer, so the injected source is modelled as a byte stream
`Nat → Nat` and the seed as its first 32 bytes. -/
def key_gen_with_rng (env : Env) (rng : Nat → Nat) :
    Except QuantCryptError (Bytes × Bytes) :=
  let sk : Bytes := (List.range 32).map rng
  match expand_decapsulation_key env sk with
  | .error e => .error e
  | .ok (_, _, pk_m, pk_x) => .ok (pk_m ++ pk_x, sk)

/-- `XWingKemManager::encap` (`src/kem/xwing.rs`, lines 130-144):
length check, split `pk` at 1184, EC encap then ML encap, combine,
concatenate ciphertexts. -/
def encap (env : Env) (pk : Bytes) :
    Except QuantCryptError (Bytes × Bytes) :=
  if pk.length ≠ 1216 then .error QuantCryptError.InvalidPublicKey
  else
    match env.ecEncap ((pk.drop 1184).take 32) with
    | .error e => .error e
    | .ok (ss_x, ct_x) =>
      match env.mlEncap (pk.take 1184) with
      | .error e => .error e
      | .ok (ss_m, ct_m) =>
        match combiner env ss_m ss_x ct_x ((pk.drop 1184).take 32) with
        | .error e => .error e
        | .ok ss => .ok (ss, ct_m ++ ct_x)

/-- `XWingKemManager::decap` (`src/kem/xwing.rs`, lines 146-161): expand
the secret key first, then check the ciphertext length, split `ct` at
1088, ML decap then EC decap, combine. -/
def decap (env : Env) (sk ct : Bytes) : Except QuantCryptError Bytes :=
  match expand_decapsulation_key env sk with
  | .error e => .error e
  | .ok (sk_m, sk_x, _pk_m, pk_x) =>
    if ct.length ≠ 1120 then .error QuantCryptError.InvalidCiphertext
    else
      match env.mlDecap sk_m (ct.take 1088) with
      | .error e => .error e
      | .ok ss_m =>
        match env.ecDecap sk_x ((ct.drop 1088).take 32) with
        | .error e => .error e
        | .ok ss_x => combiner env ss_m ss_x ((ct.drop 1088).take 32) pk_x

end XWingKemManager

/-- Modelled from the spec (§4.4): the XOF contract — a successful
derivation returns exactly the requested number of bytes. -/
structure KdfContract (env : Env) : Prop where
  derive_len : ∀ ikm n out, env.shakeDerive ikm n = .ok out → out.length = n

/-- Modelled from the spec (§4.2, §6): the fixed length parameters and the
round-trip contract of the two component primitives, and the 32-byte
output length of SHA3-256. -/
structure PrimitiveContract (env : Env) : Prop where
  ml_pk_len : ∀ d z pk sk, env.mlKeyGenDet d z = .ok (pk, sk) → pk.length = 1184
  ec_pk_len : ∀ skx pkx, env.getPkFromSk skx = .ok pkx → pkx.length = 32
  ml_ct_len : ∀ pk ss ct, env.mlEncap pk = .ok (ss, ct) → ct.length = 1088
  ec_ct_len : ∀ pk ss ct, env.ecEncap pk = .ok (ss, ct) → ct.length = 32
  ml_round_trip : ∀ d z pk sk ss ct, env.mlKeyGenDet d z = .ok (pk, sk) →
    env.mlEncap pk = .ok (ss, ct) → env.mlDecap sk ct = .ok ss
  ec_round_trip : ∀ skx pkx ss ct, env.getPkFromSk skx = .ok pkx →
    env.ecEncap pkx = .ok (ss, ct) → env.ecDecap skx ct = .ok ss
  sha3_len : ∀ x, (env.sha3_256 x).length = 32

namespace XWingKemManager

/-- Inversion of a successful key expansion: recover the XOF output, the
deterministic ML-KEM generation on the `d`/`z` slices, and the X25519
scalar-to-point derivation on the third slice. -/
lemma expand_ok_elim {env : Env} {sk a b c d : Bytes}
    (h : expand_decapsulation_key env sk = .ok (a, b, c, d)) :
    ∃ expanded, env.shakeDerive sk 96 = .ok expanded ∧
      env.mlKeyGenDet (expanded.take 32) ((expanded.drop 32).take 32) = .ok (c, a) ∧
      b = (expanded.drop 64).take 32 ∧
      env.getPkFromSk b = .ok d := by
  unfold expand_decapsulation_key at h
  cases hd : env.shakeDerive sk 96 with
  | error e => rw [hd] at h; exact absurd h (by simp)
  | ok expanded =>
    rw [hd] at h
    refine ⟨expanded, rfl, ?_⟩
    by_cases h1 : (expanded.take 32).length = 32
    · by_cases h2 : ((expanded.drop 32).take 32).length = 32
      · simp only [h1, h2, if_true] at h
        cases hk : env.mlKeyGenDet (expanded.take 32) ((expanded.drop 32).take 32) with
        | error e => rw [hk] at h; exact absurd h (by simp)
        | ok v =>
          obtain ⟨pk_m, sk_m⟩ := v
          rw [hk] at h
          cases hp : env.getPkFromSk ((expanded.drop 64).take 32) with
          | error e => rw [hp] at h; exact absurd h (by simp)
          | ok p =>
            rw [hp] at h
            simp only [Except.ok.injEq, Prod.mk.injEq] at h
            obtain ⟨ha, hb, hc, hd2⟩ := h
            subst ha; subst hb; subst hc; subst hd2
            exact ⟨rfl, rfl, hp⟩
      · simp only [h1, h2, if_true, if_false] at h
        exact absurd h (by simp)
    · simp only [h1, if_false] at h
      exact absurd h (by simp)

/-- Computation rule for key expansion when every step succeeds and the
XOF returned the requested 96 bytes. -/
lemma expand_ok_intro {env : Env} {sk expanded pk_m sk_m pk_x : Bytes}
    (hd : env.shakeDerive sk 96 = .ok expanded)
    (h96 : expanded.length = 96)
    (hk : env.mlKeyGenDet (expanded.take 32) ((expanded.drop 32).take 32) = .ok (pk_m, sk_m))
    (hp : env.getPkFromSk ((expanded.drop 64).take 32) = .ok pk_x) :
    expand_decapsulation_key env sk =
      .ok (sk_m, (expanded.drop 64).take 32, pk_m, pk_x) := by
  have h1 : (expanded.take 32).length = 32 := by
    simp [List.length_take, h96]
  have h2 : ((expanded.drop 32).take 32).length = 32 := by
    simp [List.length_take, List.length_drop, h96]
  simp only [expand_decapsulation_key, hd, h1, h2, if_true, hk, hp]

/-- Every error of key expansion is either the XOF's own error, the
post-quantum deterministic generator's own error (both propagated
verbatim by `?`), or `InvalidPrivateKey`. -/
lemma expand_error_elim {env : Env} {sk : Bytes} {e : QuantCryptError}
    (h : expand_decapsulation_key env sk = .error e) :
    env.shakeDerive sk 96 = .error e ∨
    (∃ expanded, env.shakeDerive sk 96 = .ok expanded ∧
      env.mlKeyGenDet (expanded.take 32) ((expanded.drop 32).take 32) = .error e) ∨
    e = QuantCryptError.InvalidPrivateKey := by
  unfold expand_decapsulation_key at h
  cases hd : env.shakeDerive sk 96 with
  | error e' =>
    rw [hd] at h
    simp only [Except.error.injEq] at h
    exact Or.inl (by rw [h])
  | ok expanded =>
    rw [hd] at h
    by_cases h1 : (expanded.take 32).length = 32
    · by_cases h2 : ((expanded.drop 32).take 32).length = 32
      · simp only [h1, h2, if_true] at h
        cases hk : env.mlKeyGenDet (expanded.take 32) ((expanded.drop 32).take 32) with
        | error e' =>
          rw [hk] at h
          simp only [Except.error.injEq] at h
          exact Or.inr (Or.inl ⟨expanded, rfl, by rw [hk, h]⟩)
        | ok v =>
          obtain ⟨pk_m, sk_m⟩ := v
          rw [hk] at h
          cases hp : env.getPkFromSk ((expanded.drop 64).take 32) with
          | error e' =>
            rw [hp] at h
            simp only [Except.error.injEq] at h
            exact Or.inr (Or.inr h.symm)
          | ok p => rw [hp] at h; exact absurd h (by simp)
      · simp only [h1, h2, if_true, if_false, Except.error.injEq] at h
        exact Or.inr (Or.inr h.symm)
    · simp only [h1, if_false, Except.error.injEq] at h
      exact Or.inr (Or.inr h.symm)

/-- Inversion of a successful encapsulation: the length check passed, both
component encapsulations succeeded on the two fixed-offset slices of the
public key, and the outputs are the combiner hash and the ciphertext
concatenation. -/
lemma encap_ok_elim {env : Env} {pk ss1 ct : Bytes}
    (h : encap env pk = .ok (ss1, ct)) :
    pk.length = 1216 ∧ ∃ ss_x ct_x ss_m ct_m,
      env.ecEncap ((pk.drop 1184).take 32) = .ok (ss_x, ct_x) ∧
      env.mlEncap (pk.take 1184) = .ok (ss_m, ct_m) ∧
      ss1 = env.sha3_256
        (ss_m ++ ss_x ++ ct_x ++ ((pk.drop 1184).take 32) ++ xwing_label) ∧
      ct = ct_m ++ ct_x := by
  unfold encap at h
  by_cases hlen : pk.length = 1216
  · refine ⟨hlen, ?_⟩
    rw [if_neg (by simp [hlen])] at h
    cases he : env.ecEncap ((pk.drop 1184).take 32) with
    | error e => rw [he] at h; exact absurd h (by simp)
    | ok vx =>
      obtain ⟨ss_x, ct_x⟩ := vx
      rw [he] at h
      cases hm : env.mlEncap (pk.take 1184) with
      | error e => rw [hm] at h; exact absurd h (by simp)
      | ok vm =>
        obtain ⟨ss_m, ct_m⟩ := vm
        rw [hm] at h
        simp only [combiner, Except.ok.injEq, Prod.mk.injEq] at h
        obtain ⟨hss, hct⟩ := h
        exact ⟨ss_x, ct_x, ss_m, ct_m, rfl, rfl, hss.symm, hct.symm⟩
  · rw [if_pos (by simp [hlen])] at h
    exact absurd h (by simp)

/-- Inversion of a successful `key_gen_with_rng`: the secret key is the
32 bytes drawn from the injected source and the public key is the
concatenation of the two expanded public keys. -/
lemma key_gen_with_rng_ok_elim {env : Env} {rng : Nat → Nat} {pk sk : Bytes}
    (h : key_gen_with_rng env rng = .ok (pk, sk)) :
    sk = (List.range 32).map rng ∧
    ∃ sk_m sk_x pk_m pk_x,
      expand_decapsulation_key env sk = .ok (sk_m, sk_x, pk_m, pk_x) ∧
      pk = pk_m ++ pk_x := by
  simp only [key_gen_with_rng] at h
  cases hx : expand_decapsulation_key env ((List.range 32).map rng) with
  | error e => rw [hx] at h; exact absurd h (by simp)
  | ok v =>
    obtain ⟨a, b, c, d⟩ := v
    rw [hx] at h
    simp only [Except.ok.injEq, Prod.mk.injEq] at h
    obtain ⟨h1, h2⟩ := h
    subst h2
    exact ⟨rfl, a, b, c, d, hx, h1.symm⟩

/-- Inversion of a successful `key_gen`: the CSPRNG succeeded and the
result has the same shape as for `key_gen_with_rng`. -/
lemma key_gen_ok_elim {env : Env} {osRand : Option (Nat → Nat)} {pk sk : Bytes}
    (h : key_gen env osRand = .ok (pk, sk)) :
    ∃ rng, osRand = some rng ∧ sk = (List.range 32).map rng ∧
      ∃ sk_m sk_x pk_m pk_x,
        expand_decapsulation_key env sk = .ok (sk_m, sk_x, pk_m, pk_x) ∧
        pk = pk_m ++ pk_x := by
  cases osRand with
  | none => exact absurd h (by simp [key_gen])
  | some rng =>
    simp only [key_gen] at h
    cases hx : expand_decapsulation_key env ((List.range 32).map rng) with
    | error e => rw [hx] at h; exact absurd h (by simp)
    | ok v =>
      obtain ⟨a, b, c, d⟩ := v
      rw [hx] at h
      simp only [Except.ok.injEq, Prod.mk.injEq] at h
      obtain ⟨h1, h2⟩ := h
      subst h2
      exact ⟨rng, rfl, rfl, a, b, c, d, hx, h1.symm⟩

/-- Computation rule for decapsulation when every step succeeds. -/
lemma decap_ok_intro {env : Env} {sk ct sk_m sk_x pk_m pk_x ss_m ss_x : Bytes}
    (hx : expand_decapsulation_key env sk = .ok (sk_m, sk_x, pk_m, pk_x))
    (hlen : ct.length = 1120)
    (hm : env.mlDecap sk_m (ct.take 1088) = .ok ss_m)
    (he : env.ecDecap sk_x ((ct.drop 1088).take 32) = .ok ss_x) :
    decap env sk ct = .ok (env.sha3_256
      (ss_m ++ ss_x ++ ((ct.drop 1088).take 32) ++ pk_x ++ xwing_label)) := by
  simp [decap, hx, hlen, hm, he, combiner]

end XWingKemManager

namespace XWingKemManager

/-- The error guard in `encap` fires for every environment: no component
operation can influence a wrong-length rejection. -/
lemma encap_len_guard (env : Env) (pk : Bytes) (hlen : pk.length ≠ 1216) :
    encap env pk = .error QuantCryptError.InvalidPublicKey := by
  simp [encap, hlen]

/-- After a successful expansion, a wrong-length ciphertext is rejected
with `InvalidCiphertext` for every environment. -/
lemma decap_len_guard {env : Env} {sk : Bytes} {t : Bytes × Bytes × Bytes × Bytes}
    (hx : expand_decapsulation_key env sk = .ok t)
    (ct : Bytes) (hlen : ct.length ≠ 1120) :
    decap env sk ct = .error QuantCryptError.InvalidCiphertext := by
  obtain ⟨a, b, c, d⟩ := t
  simp [decap, hx, hlen]

/-- An expansion error propagates out of `decap` verbatim, before the
ciphertext length is even inspected. -/
lemma decap_expand_error {env : Env} {sk : Bytes} {e : QuantCryptError}
    (hx : expand_decapsulation_key env sk = .error e) (ct : Bytes) :
    decap env sk ct = .error e := by
  simp [decap, hx]

/-- Output lengths of a successful encapsulation, from the primitive
contract: the shared secret is the 32-byte hash and the ciphertext is the
1088 + 32 = 1120-byte concatenation. -/
lemma encap_ok_len {env : Env} (hprim : PrimitiveContract env) {pk ss ct : Bytes}
    (h : encap env pk = .ok (ss, ct)) : ss.length = 32 ∧ ct.length = 1120 := by
  obtain ⟨hlen, ss_x, ct_x, ss_m, ct_m, hee, hme, hss, hct⟩ := encap_ok_elim h
  constructor
  · rw [hss]; exact hprim.sha3_len _
  · rw [hct]
    simp [hprim.ml_ct_len _ _ _ hme, hprim.ec_ct_len _ _ _ hee]

/-- A successful decapsulation returns the 32-byte combiner hash. -/
lemma decap_ok_len {env : Env} (hprim : PrimitiveContract env) {sk ct ss : Bytes}
    (h : decap env sk ct = .ok ss) : ss.length = 32 := by
  unfold decap at h
  cases hx : expand_decapsulation_key env sk with
  | error e => rw [hx] at h; exact absurd h (by simp)
  | ok v =>
    obtain ⟨a, b, c, d⟩ := v
    simp only [hx] at h
    by_cases hc : ct.length = 1120
    · simp only [hc] at h
      cases hm : env.mlDecap a (ct.take 1088) with
      | error e => simp [hm] at h
      | ok ss_m =>
        simp only [hm] at h
        cases he2 : env.ecDecap b ((ct.drop 1088).take 32) with
        | error e => simp [he2] at h
        | ok ss_x =>
          simp [he2, combiner] at h
          subst h
          exact hprim.sha3_len _
    · simp [hc] at h

/-- Output lengths of a successful key generation through an injected
randomness source, from the primitive contract. -/
lemma key_gen_with_rng_ok_len {env : Env} (hprim : PrimitiveContract env)
    {rng : Nat → Nat} {pk sk : Bytes}
    (h : key_gen_with_rng env rng = .ok (pk, sk)) :
    pk.length = 1216 ∧ sk.length = 32 := by
  obtain ⟨hsk, sk_m, sk_x, pk_m, pk_x, hx, hpk⟩ := key_gen_with_rng_ok_elim h
  obtain ⟨expanded, hder, hml, hskx, hgp⟩ := expand_ok_elim hx
  constructor
  · rw [hpk]
    simp [hprim.ml_pk_len _ _ _ _ hml, hprim.ec_pk_len _ _ hgp]
  · rw [hsk]; simp

/-- Core round-trip argument: a key pair arising from a successful
expansion of `sk`, encapsulated against `pk_m ++ pk_x`, decapsulates to
the same shared secret. -/
lemma roundtrip_core {env : Env} (hprim : PrimitiveContract env)
    {sk sk_m sk_x pk_m pk_x ss1 ct : Bytes}
    (hx : expand_decapsulation_key env sk = .ok (sk_m, sk_x, pk_m, pk_x))
    (he : encap env (pk_m ++ pk_x) = .ok (ss1, ct)) :
    decap env sk ct = .ok ss1 := by
  obtain ⟨expanded, hder, hml, hskx, hgp⟩ := expand_ok_elim hx
  have hpm : pk_m.length = 1184 := hprim.ml_pk_len _ _ _ _ hml
  have hpx : pk_x.length = 32 := hprim.ec_pk_len _ _ hgp
  obtain ⟨hlen, ss_x, ct_x, ss_m, ct_m, hee, hme, hss, hct⟩ := encap_ok_elim he
  have hslice_m : (pk_m ++ pk_x).take 1184 = pk_m := List.take_left' hpm
  have hslice_x : ((pk_m ++ pk_x).drop 1184).take 32 = pk_x := by
    rw [List.drop_left' hpm, List.take_of_length_le (le_of_eq hpx)]
  rw [hslice_x] at hee
  rw [hslice_m] at hme
  have hctm : ct_m.length = 1088 := hprim.ml_ct_len _ _ _ hme
  have hctx : ct_x.length = 32 := hprim.ec_ct_len _ _ _ hee
  have hctlen : ct.length = 1120 := by
    rw [hct]; simp [hctm, hctx]
  have hctsl_m : ct.take 1088 = ct_m := by
    rw [hct]; exact List.take_left' hctm
  have hctsl_x : (ct.drop 1088).take 32 = ct_x := by
    rw [hct, List.drop_left' hctm, List.take_of_length_le (le_of_eq hctx)]
  have hmd : env.mlDecap sk_m (ct.take 1088) = .ok ss_m := by
    rw [hctsl_m]; exact hprim.ml_round_trip _ _ _ _ _ _ hml hme
  have hed : env.ecDecap sk_x ((ct.drop 1088).take 32) = .ok ss_x := by
    rw [hctsl_x]; exact hprim.ec_round_trip _ _ _ _ hgp hee
  rw [decap_ok_intro hx hctlen hmd hed, hctsl_x, hss, hslice_x]

end XWingKemManager

/-- A concrete total instantiation of the external collaborators, used for
closed witnesses: every primitive succeeds, with the contractual output
lengths, and the component KEMs round-trip. -/
def toyEnv : Env where
  shakeDerive := fun _ n => .ok (List.replicate n 0)
  mlKeyGenDet := fun _ _ => .ok (List.replicate 1184 1, List.replicate 32 5)
  getPkFromSk := fun _ => .ok (List.replicate 32 2)
  mlEncap := fun _ => .ok (List.replicate 32 6, List.replicate 1088 3)
  mlDecap := fun _ _ => .ok (List.replicate 32 6)
  ecEncap := fun _ => .ok (List.replicate 32 9, List.replicate 32 4)
  ecDecap := fun _ _ => .ok (List.replicate 32 9)
  sha3_256 := fun _ => List.replicate 32 7

lemma toyEnv_kdf : KdfContract toyEnv := by
  constructor
  intro ikm n out h
  simp only [toyEnv, Except.ok.injEq] at h
  rw [← h, List.length_replicate]

lemma toyEnv_prim : PrimitiveContract toyEnv := by
  refine ⟨?_, ?_, ?_, ?_, ?_, ?_, ?_⟩
  · intro d z pk sk h
    simp only [toyEnv, Except.ok.injEq, Prod.mk.injEq] at h
    rw [← h.1, List.length_replicate]
  · intro skx pkx h
    simp only [toyEnv, Except.ok.injEq] at h
    rw [← h, List.length_replicate]
  · intro pk ss ct h
    simp only [toyEnv, Except.ok.injEq, Prod.mk.injEq] at h
    rw [← h.2, List.length_replicate]
  · intro pk ss ct h
    simp only [toyEnv, Except.ok.injEq, Prod.mk.injEq] at h
    rw [← h.2, List.length_replicate]
  · intro d z pk sk ss ct h1 h2
    simp only [toyEnv, Except.ok.injEq, Prod.mk.injEq] at h1 h2 ⊢
    exact h2.1
  · intro skx pkx ss ct h1 h2
    simp only [toyEnv, Except.ok.injEq, Prod.mk.injEq] at h1 h2 ⊢
    exact h2.1
  · intro x
    exact List.length_replicate 32 7

/-- `toyEnv` with a post-quantum deterministic generator failing with an
error other than `InvalidPrivateKey`. -/
def genFailEnv : Env :=
  { toyEnv with mlKeyGenDet := fun _ _ => .error QuantCryptError.KeyPairGenerationFailed }

/-- `toyEnv` with an ML-KEM decapsulation failing with `DecapFailed`. -/
def mlDecapFailEnv : Env :=
  { toyEnv with mlDecap := fun _ _ => .error QuantCryptError.DecapFailed }

/-- `toyEnv` with a failing XOF derivation. -/
def kdfFailEnv : Env :=
  { toyEnv with shakeDerive := fun _ _ => .error QuantCryptError.InvalidHkdfLength }

/-- An environment in which every fallible collaborator fails: used to
show length guards fire before any component operation can matter. -/
def allFailEnv : Env where
  shakeDerive := fun _ _ => .error QuantCryptError.Unknown
  mlKeyGenDet := fun _ _ => .error QuantCryptError.Unknown
  getPkFromSk := fun _ => .error QuantCryptError.Unknown
  mlEncap := fun _ => .error QuantCryptError.Unknown
  mlDecap := fun _ _ => .error QuantCryptError.Unknown
  ecEncap := fun _ => .error QuantCryptError.Unknown
  ecDecap := fun _ _ => .error QuantCryptError.Unknown
  sha3_256 := fun _ => []

/-- The seed drawn from the all-zero injected source. -/
def sk0 : Bytes := List.replicate 32 0

/-- The public key `toyEnv` key generation produces. -/
def pk0 : Bytes := List.replicate 1184 1 ++ List.replicate 32 2

/-- The shared secret of a `toyEnv` encapsulation. -/
def ss0 : Bytes := List.replicate 32 7

/-- The ciphertext of a `toyEnv` encapsulation. -/
def ct0 : Bytes := List.replicate 1088 3 ++ List.replicate 32 4

/-- `toyEnv` with a failing X25519 scalar-to-point derivation. -/
def ecPkFailEnv : Env :=
  { toyEnv with getPkFromSk := fun _ => .error QuantCryptError.BadPublicKey }

namespace XWingKemManager

/-- The third 32-byte slice of the 96-byte XOF output used by the
concrete environments. -/
lemma expand_slice_eq :
    ((List.replicate 96 (0 : Nat)).drop 64).take 32 = List.replicate 32 0 := by
  simp [List.drop_replicate, List.take_replicate]

/-- `toyEnv` expansion succeeds on every seed, with the constant
component keys. -/
lemma toyEnv_expand (sk : Bytes) :
    expand_decapsulation_key toyEnv sk =
      .ok (List.replicate 32 5, List.replicate 32 0, List.replicate 1184 1,
        List.replicate 32 2) := by
  rw [← expand_slice_eq]
  exact expand_ok_intro rfl (List.length_replicate 96 0) rfl rfl

/-- `mlDecapFailEnv` expansion coincides with `toyEnv` expansion. -/
lemma mlDecapFailEnv_expand (sk : Bytes) :
    expand_decapsulation_key mlDecapFailEnv sk =
      .ok (List.replicate 32 5, List.replicate 32 0, List.replicate 1184 1,
        List.replicate 32 2) := by
  rw [← expand_slice_eq]
  exact expand_ok_intro rfl (List.length_replicate 96 0) rfl rfl

lemma sk0_len : sk0.length = 32 := List.length_replicate 32 0

lemma pk0_len : pk0.length = 1216 := by
  simp only [pk0, List.length_append, List.length_replicate]

lemma ct0_len : ct0.length = 1120 := by
  simp only [ct0, List.length_append, List.length_replicate]

lemma map_range_zero :
    (List.range 32).map (fun _ => (0 : Nat)) = List.replicate 32 0 := by decide

/-- Concrete key generation at `toyEnv` with the all-zero source. -/
lemma toyEnv_key_gen : key_gen toyEnv (some (fun _ => 0)) = .ok (pk0, sk0) := by
  simp only [key_gen, toyEnv_expand, map_range_zero, pk0, sk0]

/-- Concrete encapsulation at `toyEnv`. -/
lemma toyEnv_encap : encap toyEnv pk0 = .ok (ss0, ct0) := by
  unfold encap
  rw [if_neg (show ¬pk0.length ≠ 1216 by rw [pk0_len]; exact fun h => h rfl)]
  rfl

/-- Concrete decapsulation at `toyEnv`: any seed decapsulates `ct0` to
the constant combiner output. -/
lemma toyEnv_decap (sk : Bytes) : decap toyEnv sk ct0 = .ok ss0 := by
  simp only [decap, toyEnv_expand]
  rw [if_neg (show ¬ct0.length ≠ 1120 by rw [ct0_len]; exact fun h => h rfl)]
  rfl

/-- Claim C1: for every key pair returned by key generation, if
encapsulation of `pk` succeeds with `(ss1, ct)`, then decapsulation of
`(sk, ct)` succeeds and returns exactly `ss1`. Proved for every
environment satisfying the primitive contract the spec states (fixed
component lengths and component round-trips). -/
theorem xwing_roundtrip (env : Env) (hprim : PrimitiveContract env)
    (osRand : Option (Nat → Nat)) (pk sk ss1 ct : Bytes)
    (hgen : key_gen env osRand = .ok (pk, sk))
    (henc : encap env pk = .ok (ss1, ct)) :
    decap env sk ct = .ok ss1 := by
  obtain ⟨rng, _, hsk, sk_m, sk_x, pk_m, pk_x, hx, hpk⟩ := key_gen_ok_elim hgen
  subst hpk
  exact roundtrip_core hprim hx henc

/-- Witness for C1 at the concrete total environment. -/
theorem xwing_roundtrip_witness : decap toyEnv sk0 ct0 = .ok ss0 :=
  xwing_roundtrip toyEnv toyEnv_prim (some (fun _ => 0)) pk0 sk0 ss0 ct0
    toyEnv_key_gen toyEnv_encap

/-- Claim C2: the combiner returns the SHA3-256 hash of
`ss_a ++ ss_b ++ ct_b ++ pk_b ++ label`, and its output length equals
the registry shared-secret length for XWing (32 bytes), for all inputs
whatever their lengths, assuming only the fixed 32-byte output of the
external hash. -/
theorem combiner_spec (env : Env) (hsha : ∀ x, (env.sha3_256 x).length = 32)
    (ss_a ss_b ct_b pk_b : Bytes) :
    combiner env ss_a ss_b ct_b pk_b =
      .ok (env.sha3_256 (ss_a ++ ss_b ++ ct_b ++ pk_b ++ xwing_label)) ∧
    ∀ ss, combiner env ss_a ss_b ct_b pk_b = .ok ss →
      ss.length = KemType.XWing.get_ss_len := by
  refine ⟨rfl, ?_⟩
  intro ss h
  simp only [combiner, Except.ok.injEq] at h
  rw [← h]
  exact hsha _

/-- Witness for C2, with inputs of four different lengths. -/
theorem combiner_spec_witness :
    combiner toyEnv [1] [2, 2] [] [3] =
      .ok (toyEnv.sha3_256 ([1] ++ [2, 2] ++ [] ++ [3] ++ xwing_label)) ∧
    ∀ ss, combiner toyEnv [1] [2, 2] [] [3] = .ok ss →
      ss.length = KemType.XWing.get_ss_len :=
  combiner_spec toyEnv (fun _ => List.length_replicate 32 7) [1] [2, 2] [] [3]

/-- Claim C3: key expansion XOF-derives 96 bytes from the seed, splits
them into `d` (bytes 0..32), `z` (bytes 32..64) and `sk_classical`
(bytes 64..96), feeds `(d, z)` to the post-quantum deterministic
generator, derives the classical public key from `sk_classical`, and
returns `(sk_pq, sk_classical, pk_pq, pk_classical)`. -/
theorem expand_structure (env : Env) (seed expanded pk_m sk_m pk_x : Bytes)
    (_hseed : seed.length = 32)
    (hd : env.shakeDerive seed 96 = .ok expanded)
    (h96 : expanded.length = 96)
    (hk : env.mlKeyGenDet (expanded.take 32) ((expanded.drop 32).take 32) = .ok (pk_m, sk_m))
    (hpx : env.getPkFromSk ((expanded.drop 64).take 32) = .ok pk_x) :
    expand_decapsulation_key env seed =
      .ok (sk_m, (expanded.drop 64).take 32, pk_m, pk_x) :=
  expand_ok_intro hd h96 hk hpx

/-- Witness for C3 at the concrete total environment. -/
theorem expand_structure_witness :
    expand_decapsulation_key toyEnv sk0 =
      .ok (List.replicate 32 5, ((List.replicate 96 0).drop 64).take 32,
        List.replicate 1184 1, List.replicate 32 2) :=
  expand_structure toyEnv sk0 (List.replicate 96 0) (List.replicate 1184 1)
    (List.replicate 32 5) (List.replicate 32 2) sk0_len rfl
    (List.length_replicate 96 0) rfl rfl

/-- Claim C4: when the secret key expands successfully (§4.4 declares
expansion total, so this covers every secret key under the spec's
contract for the external primitives), any ciphertext whose length is not
the registry total 1120 is rejected with `InvalidCiphertext`. -/
theorem decap_wrong_ct_len (env : Env) (sk ct : Bytes)
    (t : Bytes × Bytes × Bytes × Bytes)
    (hx : expand_decapsulation_key env sk = .ok t)
    (hlen : ct.length ≠ 1120) :
    decap env sk ct = .error QuantCryptError.InvalidCiphertext :=
  decap_len_guard hx ct hlen

/-- Witness for C4: a 3-byte ciphertext is rejected. -/
theorem decap_wrong_ct_len_witness :
    decap toyEnv sk0 [1, 2, 3] = .error QuantCryptError.InvalidCiphertext :=
  decap_wrong_ct_len toyEnv sk0 [1, 2, 3]
    (List.replicate 32 5, List.replicate 32 0, List.replicate 1184 1,
      List.replicate 32 2) (toyEnv_expand sk0) (by decide)

/-- Claim C5: a public key whose length is not the registry total 1216 is
rejected with `InvalidPublicKey` for every environment — in particular
for environments whose component operations all fail, so the check runs
before any component operation. -/
theorem encap_wrong_pk_len (env : Env) (pk : Bytes)
    (hlen : pk.length ≠ 1216) :
    encap env pk = .error QuantCryptError.InvalidPublicKey :=
  encap_len_guard env pk hlen

/-- Witness for C5, in the environment where every component fails:
the guard still answers `InvalidPublicKey`. -/
theorem encap_wrong_pk_len_witness :
    encap allFailEnv [1] = .error QuantCryptError.InvalidPublicKey :=
  encap_wrong_pk_len allFailEnv [1] (by decide)

/-- Claim C6: if either component decapsulation fails — with the
`DecapFailed` error the spec's taxonomy (§7) assigns to failing component
primitives — then composite decapsulation fails with `DecapFailed`: the
component error is propagated verbatim, never masked or replaced by a
default result. -/
theorem decap_component_failure (env : Env) (sk ct sk_m sk_x pk_m pk_x : Bytes)
    (hx : expand_decapsulation_key env sk = .ok (sk_m, sk_x, pk_m, pk_x))
    (hlen : ct.length = 1120)
    (hml : ∀ e, env.mlDecap sk_m (ct.take 1088) = .error e →
      e = QuantCryptError.DecapFailed)
    (hec : ∀ e, env.ecDecap sk_x ((ct.drop 1088).take 32) = .error e →
      e = QuantCryptError.DecapFailed)
    (hfail : (∃ e, env.mlDecap sk_m (ct.take 1088) = .error e) ∨
             (∃ e, env.ecDecap sk_x ((ct.drop 1088).take 32) = .error e)) :
    decap env sk ct = .error QuantCryptError.DecapFailed := by
  cases hm : env.mlDecap sk_m (ct.take 1088) with
  | error e =>
    have heq := hml e hm
    subst heq
    simp [decap, hx, hlen, hm]
  | ok ss_m =>
    cases he2 : env.ecDecap sk_x ((ct.drop 1088).take 32) with
    | error e =>
      have heq := hec e he2
      subst heq
      simp [decap, hx, hlen, hm, he2]
    | ok ss_x =>
      exfalso
      rcases hfail with ⟨e, hf⟩ | ⟨e, hf⟩
      · rw [hf] at hm
        exact absurd hm (by simp)
      · rw [hf] at he2
        exact absurd he2 (by simp)

/-- Witness for C6: with a failing ML-KEM decapsulation the composite
decapsulation reports `DecapFailed`. -/
theorem decap_component_failure_witness :
    decap mlDecapFailEnv sk0 ct0 = .error QuantCryptError.DecapFailed :=
  decap_component_failure mlDecapFailEnv sk0 ct0 (List.replicate 32 5)
    (List.replicate 32 0) (List.replicate 1184 1) (List.replicate 32 2)
    (mlDecapFailEnv_expand sk0) ct0_len
    (fun e h => by
      simp only [mlDecapFailEnv, Except.error.injEq] at h
      exact h.symm)
    (fun e h => by
      have hc : mlDecapFailEnv.ecDecap (List.replicate 32 0) ((ct0.drop 1088).take 32) =
          .ok (List.replicate 32 9) := rfl
      rw [hc] at h
      exact absurd h (by simp))
    (Or.inl ⟨QuantCryptError.DecapFailed, rfl⟩)

/-- Claim C7 counterexample: an environment whose post-quantum
deterministic generator fails with `KeyPairGenerationFailed` makes key
expansion fail with exactly that error, not `InvalidPrivateKey`: the
source propagates the generator's error verbatim through `?` instead of
mapping it, so the claim that every internal failure is reported as
`InvalidPrivateKey` and no other error value is false. -/
theorem expand_error_not_invalid_private_key :
    genFailEnv.mlKeyGenDet ((List.replicate 96 0).take 32)
        (((List.replicate 96 0).drop 32).take 32) =
      .error QuantCryptError.KeyPairGenerationFailed ∧
    expand_decapsulation_key genFailEnv sk0 =
      .error QuantCryptError.KeyPairGenerationFailed ∧
    QuantCryptError.KeyPairGenerationFailed ≠ QuantCryptError.InvalidPrivateKey := by
  refine ⟨rfl, ?_, by decide⟩
  have hd : genFailEnv.shakeDerive sk0 96 = .ok (List.replicate 96 0) := rfl
  have h1 : ((List.replicate 96 (0 : Nat)).take 32).length = 32 := by
    simp [List.take_replicate]
  have h2 : (((List.replicate 96 (0 : Nat)).drop 32).take 32).length = 32 := by
    simp [List.drop_replicate, List.take_replicate]
  have hk : ∀ x y, genFailEnv.mlKeyGenDet x y =
      .error QuantCryptError.KeyPairGenerationFailed := fun _ _ => rfl
  simp only [expand_decapsulation_key, hd, h1, h2, if_true, hk]

/-- Claim C7 (amended): key expansion is total as a function of the seed,
and every failure is either the XOF's own error or the post-quantum
deterministic generator's own error, both propagated verbatim, or else
`InvalidPrivateKey`, the error to which the slice conversions and the
classical scalar-to-point failure are mapped. -/
theorem expand_error_taxonomy (env : Env) (sk : Bytes) (e : QuantCryptError)
    (h : expand_decapsulation_key env sk = .error e) :
    env.shakeDerive sk 96 = .error e ∨
    (∃ expanded, env.shakeDerive sk 96 = .ok expanded ∧
      env.mlKeyGenDet (expanded.take 32) ((expanded.drop 32).take 32) = .error e) ∨
    e = QuantCryptError.InvalidPrivateKey :=
  expand_error_elim h

/-- Witness for the amended C7: a failing scalar-to-point derivation is
reported as `InvalidPrivateKey`. -/
theorem expand_error_taxonomy_witness :
    ecPkFailEnv.shakeDerive sk0 96 = .error QuantCryptError.InvalidPrivateKey ∨
    (∃ expanded, ecPkFailEnv.shakeDerive sk0 96 = .ok expanded ∧
      ecPkFailEnv.mlKeyGenDet (expanded.take 32) ((expanded.drop 32).take 32) =
        .error QuantCryptError.InvalidPrivateKey) ∨
    QuantCryptError.InvalidPrivateKey = QuantCryptError.InvalidPrivateKey :=
  expand_error_taxonomy ecPkFailEnv sk0 QuantCryptError.InvalidPrivateKey
    (by
      have hd : ecPkFailEnv.shakeDerive sk0 96 = .ok (List.replicate 96 0) := rfl
      have h1 : ((List.replicate 96 (0 : Nat)).take 32).length = 32 := by
        simp [List.take_replicate]
      have h2 : (((List.replicate 96 (0 : Nat)).drop 32).take 32).length = 32 := by
        simp [List.drop_replicate, List.take_replicate]
      have hk : ecPkFailEnv.mlKeyGenDet ((List.replicate 96 0).take 32)
          (((List.replicate 96 0).drop 32).take 32) =
          .ok (List.replicate 1184 1, List.replicate 32 5) := rfl
      have hp : ∀ x, ecPkFailEnv.getPkFromSk x =
          .error QuantCryptError.BadPublicKey := fun _ => rfl
      simp only [expand_decapsulation_key, hd, h1, h2, if_true, hk, hp])

/-- Claim C8 counterexample: decapsulation performs no secret-key length
check — a 1-byte secret key is accepted and decapsulated successfully,
because the seed is handed whole to the XOF before any validation — so
the claim that in every operation each input length is checked against
the registry constant before use is false. -/
theorem decap_accepts_wrong_sk_len :
    ([0] : Bytes).length ≠ 32 ∧ decap toyEnv [0] ct0 = .ok ss0 :=
  ⟨by decide, toyEnv_decap [0]⟩

/-- Claim C8 (amended): under the primitive length contract every
produced byte length equals the registry constant (public key 1216,
secret key 32, shared secret 32, ciphertext 1120); `encap` checks the
public-key length before slicing it, and `decap` checks the ciphertext
length before slicing the ciphertext — but only after expanding the
secret key, whose own length is never checked. -/
theorem length_validation (env : Env) (hprim : PrimitiveContract env) :
    (∀ pk, pk.length ≠ 1216 →
      encap env pk = .error QuantCryptError.InvalidPublicKey) ∧
    (∀ sk ct t, expand_decapsulation_key env sk = .ok t → ct.length ≠ 1120 →
      decap env sk ct = .error QuantCryptError.InvalidCiphertext) ∧
    (∀ sk ct e, expand_decapsulation_key env sk = .error e →
      decap env sk ct = .error e) ∧
    (∀ rng pk sk, key_gen_with_rng env rng = .ok (pk, sk) →
      pk.length = 1216 ∧ sk.length = 32) ∧
    (∀ pk ss ct, encap env pk = .ok (ss, ct) →
      ss.length = 32 ∧ ct.length = 1120) ∧
    (∀ sk ct ss, decap env sk ct = .ok ss → ss.length = 32) :=
  ⟨fun pk h => encap_len_guard env pk h,
   fun _ ct _ hx hl => decap_len_guard hx ct hl,
   fun _ ct _ hx => decap_expand_error hx ct,
   fun _ _ _ h => key_gen_with_rng_ok_len hprim h,
   fun _ _ _ h => encap_ok_len hprim h,
   fun _ _ _ h => decap_ok_len hprim h⟩

/-- Witness for the amended C8: both guards observed concretely. -/
theorem length_validation_witness :
    encap toyEnv (List.replicate 5 0) = .error QuantCryptError.InvalidPublicKey ∧
    decap toyEnv sk0 (List.replicate 5 0) = .error QuantCryptError.InvalidCiphertext :=
  ⟨(length_validation toyEnv toyEnv_prim).1 (List.replicate 5 0) (by decide),
   (length_validation toyEnv toyEnv_prim).2.1 sk0 (List.replicate 5 0)
     (List.replicate 32 5, List.replicate 32 0, List.replicate 1184 1,
       List.replicate 32 2) (toyEnv_expand sk0) (by decide)⟩

/-- Claim C9: the registry lookups are exhaustive over the closed variant
enumerations: every shared-secret length is positive, and every
secret-key length is a positive value or `none`, with `none` exactly for
the RSA-based variants and RSA-containing composites. -/
theorem registry_totality :
    (∀ t : KemType, 0 < t.get_ss_len) ∧
    (∀ t : DsaType,
      (∃ n, t.get_sk_len = some n ∧ 0 < n) ∨ t.get_sk_len = none) ∧
    (∀ t : DsaType, t.get_sk_len = none ↔ t.containsRsa = true) ∧
    (∀ t : PrehashDsaType,
      (∃ n, t.get_sk_len = some n ∧ 0 < n) ∨ t.get_sk_len = none) ∧
    (∀ t : PrehashDsaType, t.get_sk_len = none ↔ t.containsRsa = true) := by
  refine ⟨?_, ?_, ?_, ?_, ?_⟩ <;> intro t <;> cases t <;>
    simp [KemType.get_ss_len, DsaType.get_sk_len, DsaType.containsRsa,
      PrehashDsaType.get_sk_len, PrehashDsaType.containsRsa]

/-- Claim C10: the key-generation entry point taking an injected
randomness source has no failure branch of its own — filling the 32-byte
seed cannot fail — so every error it returns is literally an error of
seed expansion on the drawn seed; in particular it has no
`KeyPairGenerationFailed` branch, unlike `key_gen`, whose CSPRNG failure
path produces that error. -/
theorem key_gen_with_rng_errors_from_expand (env : Env) (rng : Nat → Nat)
    (e : QuantCryptError)
    (h : key_gen_with_rng env rng = .error e) :
    expand_decapsulation_key env ((List.range 32).map rng) = .error e := by
  simp only [key_gen_with_rng] at h
  cases hx : expand_decapsulation_key env ((List.range 32).map rng) with
  | error e2 =>
    rw [hx] at h
    simp only [Except.error.injEq] at h
    rw [h]
  | ok v =>
    obtain ⟨a, b, c, d⟩ := v
    rw [hx] at h
    simp at h

/-- Witness for C10: the only failure observable through the injected
source entry point is the expansion failure itself. -/
theorem key_gen_with_rng_errors_from_expand_witness :
    expand_decapsulation_key kdfFailEnv ((List.range 32).map (fun _ => 0)) =
      .error QuantCryptError.InvalidHkdfLength :=
  key_gen_with_rng_errors_from_expand kdfFailEnv (fun _ => 0)
    QuantCryptError.InvalidHkdfLength (by decide)

end XWingKemManager
